import Mathlib

/-!
# A verification model of the docker-cloud GCE orchestrator

Shallow embedding of the two Go source files of `proppy/docker-cloud`:
`dockercloud` (the GCE implementation of the Cloud interface) and the
`main` package (the `start`/`stop` orchestrator).

Every provider interaction (`ZoneOperations.Get`, `Disks.Get`,
`Disks.Insert`, `Instances.Insert`, `Instances.Delete`, `Instances.Get`,
spawning the ssh subprocess) is modelled as data supplied by an
environment: each Go call site that returns `(*T, error)` is given the
pair it returns, with the pointer rendered as `Option` (a `none`
operation/instance/disk stands for a `nil` pointer, so a field access on
it is a crash).  The embedded functions return both the Go function's
result and a count of the provider calls they issued, so that claims
about "how many insert/delete/wait calls happen" are statements about
the embedding's output.
-/

set_option autoImplicit false

namespace DockerCloud

/-- Outcome of running one of the embedded Go functions.
`ok a` is a normal return with a `nil` error, `fail e` is a normal
return carrying a non-nil error, `crash` is a run-time panic (a `nil`
pointer dereference or an out-of-range index), and `stuck` means the
supplied trace of provider responses ran out while the code was still
polling (the Go loop would still be running). -/
inductive RunRes (α : Type) where
  | ok (a : α)
  | fail (e : String)
  | crash
  | stuck
  deriving Repr, DecidableEq

/-- The fields of `compute.Operation` read by the Go code:
`op.Name` (used to re-fetch), `op.Status` (the polled state) and
`op.TargetLink` (returned as the created disk's reference). -/
structure Operation where
  name : String := ""
  status : String := ""
  targetLink : String := ""
  deriving Repr, DecidableEq

/-- What one `cloud.service.ZoneOperations.Get(...).Do()` call returns:
a `*compute.Operation` (possibly `nil`) and an `error` (possibly `nil`). -/
structure OpFetch where
  op : Option Operation
  err : Option String
  deriving Repr, DecidableEq

/-- The status test of the loop body of `waitForOp`:
`op.Status != "PENDING" && op.Status != "RUNNING" && op.Status != "DONE"`
fails exactly when the status is one of the three recognised values. -/
def goodStatus (s : String) : Bool :=
  s == "PENDING" || s == "RUNNING" || s == "DONE"

/-- `return err` at the end of `waitForOp`: a `nil` error is success. -/
def retOf (e : Option String) : RunRes Unit :=
  match e with
  | none => RunRes.ok ()
  | some m => RunRes.fail m

/-- Account for one more fetch and one more sleep in a wait trace. -/
def bump (t : RunRes Unit × Nat × Nat) : RunRes Unit × Nat × Nat :=
  (t.1, t.2.1 + 1, t.2.2 + 1)

/-- The loop of `waitForOp`, entered at the `for op.Status != "DONE"`
condition check.  `cur` is the `(op, err)` pair left by the most recent
fetch (the initial one, or the re-fetch of the previous iteration);
the list holds the results of the future re-fetches, in order.  The
output is `(result, re-fetches performed, sleeps performed)`.

Mirrors the Go body: while the current status is not `DONE`, print a
dot, sleep 5 seconds, re-fetch `(op, err)`; a non-nil fetch error is
only logged; then, if the freshly fetched status is none of `PENDING`,
`RUNNING`, `DONE`, return `errors.New("Bad operation: ...")`.  Once the
condition sees `DONE`, return `err` — the error of the fetch that
produced the `DONE`.  A `nil` current operation crashes at the first
field access (`op.Status`). -/
def waitLoop : OpFetch → List OpFetch → RunRes Unit × Nat × Nat
  | ⟨none, _⟩, _ => (RunRes.crash, 0, 0)
  | ⟨some o, e⟩, rest =>
    if o.status = "DONE" then
      (retOf e, 0, 0)
    else
      match rest with
      | [] => (RunRes.stuck, 0, 1)
      | ⟨none, _⟩ :: _ => (RunRes.crash, 1, 1)
      | ⟨some o2, e2⟩ :: rest2 =>
        if goodStatus o2.status then
          bump (waitLoop ⟨some o2, e2⟩ rest2)
        else
          (RunRes.fail ("Bad operation: " ++ o2.status), 1, 1)

/-- `func (cloud GCECloud) waitForOp(op, zone) error`.  The list gives
the successive results of `ZoneOperations.Get`: its head is what the
initial fetch returns, the tail feeds the loop's re-fetches.  Output is
`(result, total fetches performed, sleeps performed)`. -/
def waitForOp (fetches : List OpFetch) : RunRes Unit × Nat × Nat :=
  match fetches with
  | [] => (RunRes.stuck, 0, 0)
  | r :: rest =>
    let t := waitLoop r rest
    (t.1, t.2.1 + 1, t.2.2)

/-! ## Configuration flags (package-level `flag` defaults) -/

/-- Flag `-diskname`, default `"docker-root"`. -/
def diskNameFlag : String := "docker-root"

/-- Flag `-disksize`, default 100 — declared but never forwarded to the
disk insert request (the spec records this as an open question). -/
def diskSizeGb : Int := 100

/-- Flag `-instancetype` default. -/
def instanceTypeFlag : String := "/zones/us-central1-a/machineTypes/n1-standard-1"

/-- Flag `-image` default. -/
def imageFlag : String :=
  "https://www.googleapis.com/compute/v1/projects/debian-cloud/global/images/backports-debian-7-wheezy-v20131127"

/-- The `startup` constant: the startup script passed as instance
metadata. -/
def startup : String :=
  "#!/bin/bash\nsysctl -w net.ipv4.ip_forward=1\nwget -qO- https://get.docker.io/ | sh\necho \x27DOCKER_OPTS=\"-H :8000 -mtu 1460\"\x27 >> /etc/default/docker\nservice docker restart && echo \"docker restarted on port :8000\"\n"

/-! ## Disk Manager -/

/-- The fields of `compute.Disk` the Go code reads: `disk.SelfLink`. -/
structure Disk where
  name : String := ""
  selfLink : String := ""
  deriving Repr, DecidableEq

/-- What `cloud.service.Disks.Get(projectId, zone, *diskName).Do()`
returns. -/
structure DiskGetRes where
  disk : Option Disk
  err : Option String
  deriving Repr, DecidableEq

/-- What an insert/delete call (`Disks.Insert`, `Instances.Insert`,
`Instances.Delete`) returns: a `*compute.Operation` and an `error`. -/
structure InsertRes where
  op : Option Operation
  err : Option String
  deriving Repr, DecidableEq

/-- Provider responses consumed by one `getOrCreateRootDisk` call:
the lookup's answer, the insert call's answer (used only if the lookup
errs), and the operation-status fetches consumed by the wait. -/
structure DiskEnv where
  diskGet : DiskGetRes
  diskInsert : InsertRes
  opFetches : List OpFetch
  deriving Repr, DecidableEq

/-- Provider calls issued by one `getOrCreateRootDisk` call (the
initial `Disks.Get` always happens and is not counted separately). -/
structure DiskCalls where
  inserts : Nat
  waits : Nat
  deriving Repr, DecidableEq

/-- `func (cloud GCECloud) getOrCreateRootDisk(name, zone) (string, error)`.

If the lookup's error is `nil`, return `disk.SelfLink` at once (a `nil`
disk with a `nil` error would crash at that field access).  On any
lookup error, issue `Disks.Insert` (with `Name: *diskName` and the
configured source image): an insert error is returned; otherwise
`waitForOp(op, zone)` runs (a `nil` operation crashes inside the wait at
`op.Name`), a wait error is returned, and on success the result is
`op.TargetLink`. -/
def getOrCreateRootDisk (env : DiskEnv) : RunRes String × DiskCalls :=
  match env.diskGet.err with
  | none =>
    match env.diskGet.disk with
    | some d => (RunRes.ok d.selfLink, ⟨0, 0⟩)
    | none => (RunRes.crash, ⟨0, 0⟩)
  | some _ =>
    match env.diskInsert.err with
    | some e => (RunRes.fail e, ⟨1, 0⟩)
    | none =>
      match env.diskInsert.op with
      | none => (RunRes.crash, ⟨1, 1⟩)
      | some op =>
        match (waitForOp env.opFetches).1 with
        | RunRes.ok _ => (RunRes.ok op.targetLink, ⟨1, 1⟩)
        | RunRes.fail e => (RunRes.fail e, ⟨1, 1⟩)
        | RunRes.crash => (RunRes.crash, ⟨1, 1⟩)
        | RunRes.stuck => (RunRes.stuck, ⟨1, 1⟩)

/-! ## Instance Manager -/

/-- `compute.AccessConfig`: only `Type` is assigned by the code;
`NatIP` is left at the Go zero value `""`. -/
structure AccessConfig where
  typ : String := ""
  natIP : String := ""
  deriving Repr, DecidableEq

/-- `compute.NetworkInterface` as used: access configs and network. -/
structure NetworkInterface where
  accessConfigs : List AccessConfig := []
  network : String := ""
  deriving Repr, DecidableEq

/-- `compute.AttachedDisk` as used. -/
structure AttachedDisk where
  boot : Bool := false
  typ : String := ""
  mode : String := ""
  source : String := ""
  deriving Repr, DecidableEq

/-- One `compute.MetadataItems` entry. -/
structure MetadataItem where
  key : String := ""
  value : String := ""
  deriving Repr, DecidableEq

/-- The fields of `compute.Instance` assigned or read by the code. -/
structure Instance where
  name : String := ""
  description : String := ""
  machineType : String := ""
  disks : List AttachedDisk := []
  networkInterfaces : List NetworkInterface := []
  metadataItems : List MetadataItem := []
  deriving Repr, DecidableEq

/-- `prefix := "https://www.googleapis.com/compute/v1/projects/" + cloud.projectId`. -/
def projectBase (projectId : String) : String :=
  "https://www.googleapis.com/compute/v1/projects/" ++ projectId

/-- The instance descriptor literal built by `CreateInstance` (step (b)
of the spec): one boot disk attached from `rootDisk`, one network
interface with a single `ONE_TO_ONE_NAT` access config (whose `NatIP`
is never assigned), and the startup-script metadata entry. -/
def mkInstance (projectId name rootDisk : String) : Instance :=
  { name := name
    description := "Docker on GCE"
    machineType := projectBase projectId ++ instanceTypeFlag
    disks := [{ boot := true, typ := "PERSISTENT", mode := "READ_WRITE", source := rootDisk }]
    networkInterfaces :=
      [{ accessConfigs := [{ typ := "ONE_TO_ONE_NAT" }]
         network := projectBase projectId ++ "/global/networks/default" }]
    metadataItems := [{ key := "startup-script", value := startup }] }

/-- Provider responses consumed by one `CreateInstance` call. -/
structure CreateEnv where
  diskEnv : DiskEnv
  instInsert : InsertRes
  instOpFetches : List OpFetch
  deriving Repr, DecidableEq

/-- Mutating provider calls issued by one `CreateInstance` call. -/
structure CreateCalls where
  diskInserts : Nat
  instanceInserts : Nat
  deriving Repr, DecidableEq

/-- `func (cloud GCECloud) CreateInstance(name, zone) (string, error)`.

Obtains the root disk via `getOrCreateRootDisk` — any failure there is
returned with no `Instances.Insert` issued.  Then builds the instance
literal, issues the insert (an error is returned), waits for the
operation (a wait error is returned), sleeps 60 seconds, and finally
returns `instance.NetworkInterfaces[0].AccessConfigs[0].NatIP` read
back from the request literal (index accesses on the literal's
singleton lists). -/
def CreateInstance (projectId name : String) (env : CreateEnv) :
    RunRes String × CreateCalls :=
  match getOrCreateRootDisk env.diskEnv with
  | (RunRes.fail e, dc) => (RunRes.fail e, ⟨dc.inserts, 0⟩)
  | (RunRes.crash, dc) => (RunRes.crash, ⟨dc.inserts, 0⟩)
  | (RunRes.stuck, dc) => (RunRes.stuck, ⟨dc.inserts, 0⟩)
  | (RunRes.ok rootDisk, dc) =>
    let inst := mkInstance projectId name rootDisk
    match env.instInsert.err with
    | some e => (RunRes.fail e, ⟨dc.inserts, 1⟩)
    | none =>
      match env.instInsert.op with
      | none => (RunRes.crash, ⟨dc.inserts, 1⟩)
      | some _ =>
        match (waitForOp env.instOpFetches).1 with
        | RunRes.fail e => (RunRes.fail e, ⟨dc.inserts, 1⟩)
        | RunRes.crash => (RunRes.crash, ⟨dc.inserts, 1⟩)
        | RunRes.stuck => (RunRes.stuck, ⟨dc.inserts, 1⟩)
        | RunRes.ok _ =>
          match inst.networkInterfaces with
          | [] => (RunRes.crash, ⟨dc.inserts, 1⟩)
          | ni :: _ =>
            match ni.accessConfigs with
            | [] => (RunRes.crash, ⟨dc.inserts, 1⟩)
            | ac :: _ => (RunRes.ok ac.natIP, ⟨dc.inserts, 1⟩)

/-- Provider responses consumed by one `DeleteInstance` call. -/
structure DeleteEnv where
  instDelete : InsertRes
  opFetches : List OpFetch
  deriving Repr, DecidableEq

/-- Provider calls issued by one `DeleteInstance` call.  `diskDeletes`
counts delete calls against the backing disk — the function body
contains no such call site, so the count a run reports is what the
code actually issued. -/
structure DeleteCalls where
  instanceDeletes : Nat
  diskDeletes : Nat
  waits : Nat
  deriving Repr, DecidableEq

/-- `func (cloud GCECloud) DeleteInstance(name, zone) error`.
Issues `Instances.Delete`; an error is returned at once.  Otherwise
`waitForOp` runs (a `nil` operation crashes inside it at `op.Name`) and
its result is returned. -/
def DeleteInstance (env : DeleteEnv) : RunRes Unit × DeleteCalls :=
  match env.instDelete.err with
  | some e => (RunRes.fail e, ⟨1, 0, 0⟩)
  | none =>
    match env.instDelete.op with
    | none => (RunRes.crash, ⟨1, 0, 1⟩)
    | some _ => ((waitForOp env.opFetches).1, ⟨1, 0, 1⟩)

/-! ## Address Resolver -/

/-- What `cloud.service.Instances.Get(projectId, zone, name).Do()`
returns. -/
structure InstGetRes where
  inst : Option Instance
  err : Option String
  deriving Repr, DecidableEq

/-- `func (cloud GCECloud) GetPublicIPAddress(name, zone) (string, error)`.
A lookup error is returned as `("", err)`.  On success the code returns
`instance.NetworkInterfaces[0].AccessConfigs[0].NatIP`: a `nil`
instance, an empty interface list or an empty access-config list makes
that indexing panic (crash), not an error return. -/
def GetPublicIPAddress (r : InstGetRes) : RunRes String :=
  match r.err with
  | some e => RunRes.fail e
  | none =>
    match r.inst with
    | none => RunRes.crash
    | some i =>
      match i.networkInterfaces with
      | [] => RunRes.crash
      | ni :: _ =>
        match ni.accessConfigs with
        | [] => RunRes.crash
        | ac :: _ => RunRes.ok ac.natIP

/-! ## Tunnel Launcher -/

/-- Environment of one `openSecureTunnel` call: the instance lookup
behind its `GetPublicIPAddress` call, and the outcome of the spawned
ssh subprocess (`cmd.Run()`), which the code never inspects. -/
structure TunnelEnv where
  instGet : InstGetRes
  sshExit : Option String
  deriving Repr, DecidableEq

/-- `func (cloud GCECloud) openSecureTunnel(...) (*os.Process, error)`.
Resolves the address first: a resolution failure is propagated with no
subprocess spawned.  Otherwise the ssh command is built with the
resolved address, run, and `(cmd.Process, nil)` is returned whatever
the subprocess did.  Output: `(result, subprocesses spawned, the
address the spawn targeted)`. -/
def openSecureTunnel (env : TunnelEnv) : RunRes Unit × Nat × Option String :=
  match GetPublicIPAddress env.instGet with
  | RunRes.fail e => (RunRes.fail e, 0, none)
  | RunRes.crash => (RunRes.crash, 0, none)
  | RunRes.stuck => (RunRes.stuck, 0, none)
  | RunRes.ok ip => (RunRes.ok (), 1, some ip)

/-! ## Orchestrator (`main` package) -/

/-- Environment of one `start` run.  `instGet` is the provider's answer
to `Instances.Get` for the configured name — the tool assumes it is the
sole mutator of that instance (spec §5), so on the no-mutation GET path
both address queries (the initial one and the one inside the tunnel
launcher) see this same snapshot. -/
structure StartEnv where
  instGet : InstGetRes
  createEnv : CreateEnv
  sshExit : Option String
  deriving Repr, DecidableEq

/-- `func (cloud *DockerCloud) GetOrCreateInstance() (string, error)`.
Queries the public address; `instanceRunning := len(ip) > 0`.  If
running, returns `(ip, err)` (on this path `err` is `nil`, since an
erring lookup yields `ip = ""`).  Otherwise — also when the lookup
merely errs — falls through to `CreateInstance`. -/
def GetOrCreateInstance (projectId name : String) (env : StartEnv) :
    RunRes String × CreateCalls :=
  match GetPublicIPAddress env.instGet with
  | RunRes.ok ip =>
    if ip.length > 0 then (RunRes.ok ip, ⟨0, 0⟩)
    else CreateInstance projectId name env.createEnv
  | RunRes.fail _ => CreateInstance projectId name env.createEnv
  | RunRes.crash => (RunRes.crash, ⟨0, 0⟩)
  | RunRes.stuck => (RunRes.stuck, ⟨0, 0⟩)

/-- Calls issued by one `start` run, plus the address the tunnel spawn
targeted (when a spawn happened). -/
structure StartCalls where
  diskInserts : Nat
  instanceInserts : Nat
  tunnelSpawns : Nat
  tunnelAddr : Option String
  deriving Repr, DecidableEq

/-- The `start` branch of `main`: `GetOrCreateInstance`, fatal exit on
error; then `OpenSecureTunnel` (which re-resolves the address from the
same provider snapshot), fatal exit on error; then the process blocks
forever on a channel read — `ok` here means it reached that block. -/
def startRun (projectId name : String) (env : StartEnv) :
    RunRes Unit × StartCalls :=
  match GetOrCreateInstance projectId name env with
  | (RunRes.fail _, c) =>
    (RunRes.fail "failed to create VM instance", ⟨c.diskInserts, c.instanceInserts, 0, none⟩)
  | (RunRes.crash, c) => (RunRes.crash, ⟨c.diskInserts, c.instanceInserts, 0, none⟩)
  | (RunRes.stuck, c) => (RunRes.stuck, ⟨c.diskInserts, c.instanceInserts, 0, none⟩)
  | (RunRes.ok _, c) =>
    match openSecureTunnel ⟨env.instGet, env.sshExit⟩ with
    | (RunRes.fail _, s, a) =>
      (RunRes.fail "failed to create SSH tunnel", ⟨c.diskInserts, c.instanceInserts, s, a⟩)
    | (RunRes.crash, s, a) => (RunRes.crash, ⟨c.diskInserts, c.instanceInserts, s, a⟩)
    | (RunRes.stuck, s, a) => (RunRes.stuck, ⟨c.diskInserts, c.instanceInserts, s, a⟩)
    | (RunRes.ok _, s, a) => (RunRes.ok (), ⟨c.diskInserts, c.instanceInserts, s, a⟩)

/-! ## Concrete fixtures used by counterexamples and witnesses -/

/-- An operation observed in status `PENDING`. -/
def pendingOp : Operation := { name := "op-1", status := "PENDING" }

/-- An operation observed in status `RUNNING`. -/
def runningOp : Operation := { name := "op-1", status := "RUNNING" }

/-- An operation observed in status `DONE`. -/
def doneOp : Operation := { name := "op-1", status := "DONE" }

/-- An operation observed in a status outside `{PENDING, RUNNING, DONE}`. -/
def failedOp : Operation := { name := "op-1", status := "FAILED" }

/-- A disk environment whose lookup errs and whose insert call then
also errs: the create path stops at the insert, with no wait. -/
def envC3bad : DiskEnv :=
  { diskGet := ⟨none, some "googleapi: Error 404: not found"⟩
    diskInsert := ⟨none, some "insert failed"⟩
    opFetches := [] }

/-- A disk environment whose lookup errs and whose create path then
succeeds: the insert returns an operation, and its first status fetch
already reports `DONE`. -/
def envC3ok : DiskEnv :=
  { diskGet := ⟨none, some "googleapi: Error 404: not found"⟩
    diskInsert := ⟨some { name := "op-disk", status := "PENDING", targetLink := "link-to-disk" }, none⟩
    opFetches := [⟨some doneOp, none⟩] }

/-- A disk environment whose lookup finds the disk at once. -/
def diskEnvHit : DiskEnv :=
  { diskGet := ⟨some { name := "docker-root", selfLink := "disk-link" }, none⟩
    diskInsert := ⟨none, none⟩
    opFetches := [] }

/-- A create environment in which every provider call succeeds: disk
already present, instance insert accepted, operation `DONE` on the
first fetch. -/
def envC4 : CreateEnv :=
  { diskEnv := diskEnvHit
    instInsert := ⟨some { name := "op-inst", status := "PENDING" }, none⟩
    instOpFetches := [⟨some doneOp, none⟩] }

/-- A create environment whose root-disk step fails (lookup errs, then
the insert call errs). -/
def envC9 : CreateEnv :=
  { diskEnv := envC3bad
    instInsert := ⟨none, none⟩
    instOpFetches := [] }

/-- An instance record with no network interface at all. -/
def bareInstance : Instance := { name := "docker-instance" }

/-- An instance as the provider reports it once running: one interface,
one access config, a populated external address. -/
def runningInstance : Instance :=
  { name := "docker-instance"
    networkInterfaces :=
      [{ accessConfigs := [{ typ := "ONE_TO_ONE_NAT", natIP := "203.0.113.7" }]
         network := "default" }] }

/-- A delete environment whose delete call succeeds and whose operation
is `DONE` on the first fetch. -/
def delEnvC10 : DeleteEnv :=
  ⟨⟨some { name := "op-del", status := "PENDING" }, none⟩, [⟨some doneOp, none⟩]⟩

/-! ## The Operation Poller -/

/-- Once the loop condition sees `DONE`, the wait returns the current
fetch's error with no further fetch and no further sleep. -/
theorem waitLoop_done (o : Operation) (e : Option String) (rest : List OpFetch)
    (h : o.status = "DONE") :
    waitLoop ⟨some o, e⟩ rest = (retOf e, 0, 0) := by
  cases rest with
  | nil => rw [waitLoop.eq_2, if_pos h]
  | cons r rest2 =>
    rcases r with ⟨rop, rerr⟩
    cases rop with
    | none => rw [waitLoop.eq_3, if_pos h]
    | some o2 => rw [waitLoop.eq_4, if_pos h]

/-- One loop iteration: the condition sees a non-`DONE` status, the
loop sleeps and re-fetches, and the re-fetched status is recognised. -/
theorem waitLoop_step (o : Operation) (e : Option String) (o2 : Operation)
    (e2 : Option String) (rest : List OpFetch)
    (hcur : o.status ≠ "DONE") (hg : goodStatus o2.status = true) :
    waitLoop ⟨some o, e⟩ (⟨some o2, e2⟩ :: rest) =
      bump (waitLoop ⟨some o2, e2⟩ rest) := by
  rw [waitLoop.eq_4, if_neg hcur, if_pos hg]

/-- While the polled status is not `DONE`, the error component of the
current fetch is dead state: the loop's behaviour from here on does not
depend on it (it was only logged). -/
theorem waitLoop_err_irrel (o : Operation) (e e2 : Option String)
    (rest : List OpFetch) (h : o.status ≠ "DONE") :
    waitLoop ⟨some o, e⟩ rest = waitLoop ⟨some o, e2⟩ rest := by
  cases rest with
  | nil => rw [waitLoop.eq_2, waitLoop.eq_2, if_neg h, if_neg h]
  | cons r rest2 =>
    rcases r with ⟨rop, rerr⟩
    cases rop with
    | none => rw [waitLoop.eq_3, waitLoop.eq_3, if_neg h, if_neg h]
    | some o2 => rw [waitLoop.eq_4, waitLoop.eq_4, if_neg h, if_neg h]

/-- C1 counterexample.  The claim says a status outside
`{PENDING, RUNNING, DONE}` observed on the very first fetch makes the
wait return an error immediately, with no further fetch and no sleep.
On the fetch sequence `FAILED, DONE` the wait instead sleeps once,
fetches a second time, and returns success: the initial fetch's status
is never checked against the recognised set. -/
theorem C1_counterexample :
    waitForOp [⟨some failedOp, none⟩, ⟨some doneOp, none⟩] = (RunRes.ok (), 2, 1) ∧
    ∀ e, (waitForOp [⟨some failedOp, none⟩, ⟨some doneOp, none⟩]).1 ≠ RunRes.fail e := by
  refine ⟨by decide, ?_⟩
  intro e h
  have h0 : (waitForOp [⟨some failedOp, none⟩, ⟨some doneOp, none⟩]).1 = RunRes.ok () := by
    decide
  rw [h0] at h
  exact RunRes.noConfusion h

/-- C1 (amended): as soon as a status outside `{PENDING, RUNNING, DONE}`
is observed by a re-fetch inside the polling loop, the wait returns the
descriptive `Bad operation` error immediately — exactly one more fetch
and one more sleep, whatever further responses the provider would have
given.  (The status of the initial fetch is not checked against this
set; it only gates loop entry via the `DONE` test.) -/
theorem C1_amended (o : Operation) (e : Option String) (o2 : Operation)
    (e2 : Option String) (rest : List OpFetch)
    (hcur : o.status ≠ "DONE") (hbad : goodStatus o2.status = false) :
    waitLoop ⟨some o, e⟩ (⟨some o2, e2⟩ :: rest) =
      (RunRes.fail ("Bad operation: " ++ o2.status), 1, 1) := by
  rw [waitLoop.eq_4, if_neg hcur]
  simp [hbad]

/-- Witness for C1 (amended): from a `PENDING` state, a re-fetch
observing `FAILED` ends the wait at once with the descriptive error. -/
theorem C1_amended_witness :
    waitLoop ⟨some pendingOp, none⟩ [⟨some failedOp, none⟩] =
      (RunRes.fail ("Bad operation: " ++ failedOp.status), 1, 1) :=
  C1_amended pendingOp none failedOp none [] (by decide) (by decide)

/-- C2 counterexample.  The claim says a fetch error during polling is
only logged and the loop continues re-fetching — never terminating the
wait, neither by returning an error nor by crashing.  But a re-fetch
that returns an error returns a `nil` operation alongside it, and the
loop body dereferences that operation unconditionally at its status
check: on the sequence below the errored re-fetch crashes the wait
(no further fetch, no further sleep). -/
theorem C2_counterexample :
    waitForOp [⟨some pendingOp, none⟩, ⟨none, some "transient fetch failure"⟩] =
      (RunRes.crash, 2, 1) := by decide

/-- C2 (amended): a re-fetch error that comes with an operation value
in status `PENDING` or `RUNNING` is only logged and the loop continues
re-fetching at the next interval; the error value has no influence on
the rest of the wait (the continuation is the same for any error value).
However, an errored re-fetch carrying no operation value crashes the
wait at the status dereference, and an error on the fetch that observes
`DONE` is returned as the wait's result. -/
theorem C2_amended (o : Operation) (e : Option String) (r : Operation)
    (f f2 : Option String) (rest : List OpFetch)
    (hcur : o.status ≠ "DONE")
    (hgood : r.status = "PENDING" ∨ r.status = "RUNNING") :
    waitLoop ⟨some o, e⟩ (⟨some r, f⟩ :: rest) =
      bump (waitLoop ⟨some r, f2⟩ rest) := by
  have hne : r.status ≠ "DONE" := by
    rcases hgood with h | h <;> rw [h] <;> decide
  have hg : goodStatus r.status = true := by
    rcases hgood with h | h <;> rw [h] <;> decide
  rw [waitLoop_step o e r f rest hcur hg,
    waitLoop_err_irrel r f f2 rest hne]

/-- Witness for C2 (amended): an errored `RUNNING` re-fetch is ignored
apart from logging — the wait continues exactly as it would from a
clean `RUNNING` observation. -/
theorem C2_amended_witness :
    waitLoop ⟨some pendingOp, none⟩
        (⟨some runningOp, some "transient"⟩ :: [⟨some doneOp, none⟩]) =
      bump (waitLoop ⟨some runningOp, none⟩ [⟨some doneOp, none⟩]) :=
  C2_amended pendingOp none runningOp (some "transient") none
    [⟨some doneOp, none⟩] (by decide) (Or.inr rfl)

/-- C5: on any operation whose three successive polled statuses are
`PENDING`, `RUNNING`, `DONE` (all fetches succeeding), the wait returns
success (`nil`) after exactly three status fetches (and two sleeps),
whatever responses would have followed. -/
theorem C5_pending_running_done (o1 o2 o3 : Operation) (rest : List OpFetch)
    (h1 : o1.status = "PENDING") (h2 : o2.status = "RUNNING")
    (h3 : o3.status = "DONE") :
    waitForOp (⟨some o1, none⟩ :: ⟨some o2, none⟩ :: ⟨some o3, none⟩ :: rest) =
      (RunRes.ok (), 3, 2) := by
  have hne1 : o1.status ≠ "DONE" := by rw [h1]; decide
  have hne2 : o2.status ≠ "DONE" := by rw [h2]; decide
  have hg2 : goodStatus o2.status = true := by rw [h2]; decide
  have hg3 : goodStatus o3.status = true := by rw [h3]; decide
  have s1 := waitLoop_step o1 none o2 none (⟨some o3, none⟩ :: rest) hne1 hg2
  have s2 := waitLoop_step o2 none o3 none rest hne2 hg3
  have s3 := waitLoop_done o3 none rest h3
  simp [waitForOp, s1, s2, s3, bump, retOf]

/-- Witness for C5 at a concrete `PENDING, RUNNING, DONE` trace. -/
theorem C5_witness :
    waitForOp [⟨some pendingOp, none⟩, ⟨some runningOp, none⟩, ⟨some doneOp, none⟩] =
      (RunRes.ok (), 3, 2) :=
  C5_pending_running_done pendingOp runningOp doneOp [] rfl rfl rfl

/-! ## Disk Manager -/

/-- C3 counterexample.  The claim says any failed lookup is followed by
exactly one insert, then one operation wait, then the created disk's
reference being returned.  When the insert call itself errs, the insert
is issued but no wait follows and an error — not a disk reference — is
returned. -/
theorem C3_counterexample :
    getOrCreateRootDisk envC3bad = (RunRes.fail "insert failed", ⟨1, 0⟩) := by
  decide

/-- C3 (amended): a successful lookup returns the found disk's
reference at once with no insert and no wait.  A failed lookup issues
exactly one insert — never two; when the insert succeeds it is followed
by exactly one wait, and when that wait also succeeds the created
disk's reference (`op.TargetLink`) is returned; an insert error is
returned with no wait performed. -/
theorem C3_amended (env : DiskEnv) :
    (∀ d, env.diskGet.err = none → env.diskGet.disk = some d →
      getOrCreateRootDisk env = (RunRes.ok d.selfLink, ⟨0, 0⟩)) ∧
    (env.diskGet.err ≠ none →
      (getOrCreateRootDisk env).2.inserts = 1 ∧
      (getOrCreateRootDisk env).2.waits ≤ 1 ∧
      (env.diskInsert.err = none → (getOrCreateRootDisk env).2.waits = 1) ∧
      (∀ e, env.diskInsert.err = some e →
        getOrCreateRootDisk env = (RunRes.fail e, ⟨1, 0⟩)) ∧
      (∀ op, env.diskInsert.err = none → env.diskInsert.op = some op →
        (waitForOp env.opFetches).1 = RunRes.ok () →
        getOrCreateRootDisk env = (RunRes.ok op.targetLink, ⟨1, 1⟩))) := by
  obtain ⟨⟨dsk, gerr⟩, ⟨iop, ierr⟩, fs⟩ := env
  constructor
  · intro d h1 h2
    simp only at h1 h2
    subst h1
    subst h2
    rfl
  · intro hne
    cases gerr with
    | none => exact absurd rfl hne
    | some g =>
      cases ierr with
      | some e =>
        refine ⟨rfl, Nat.zero_le 1, ?_, ?_, ?_⟩
        · intro h
          exact Option.noConfusion h
        · intro e2 he
          injection he with he
          subst he
          rfl
        · intro op h
          exact Option.noConfusion h
      | none =>
        cases iop with
        | none =>
          refine ⟨rfl, Nat.le_refl 1, fun _ => rfl, ?_, ?_⟩
          · intro e2 he
            exact Option.noConfusion he
          · intro op _ hop
            exact Option.noConfusion hop
        | some op0 =>
          refine ⟨?_, ?_, fun _ => ?_, ?_, ?_⟩
          · cases hw : (waitForOp fs).1 <;> simp [getOrCreateRootDisk, hw]
          · cases hw : (waitForOp fs).1 <;> simp [getOrCreateRootDisk, hw]
          · cases hw : (waitForOp fs).1 <;> simp [getOrCreateRootDisk, hw]
          · intro e2 he
            exact Option.noConfusion he
          · intro op h1 h2 hw
            simp only at h2
            injection h2 with h2
            subst h2
            simp [getOrCreateRootDisk, hw]

/-- Witness for C3 (amended): a failed lookup followed by a successful
insert and a one-fetch `DONE` wait returns the created disk's
reference with exactly one insert and one wait. -/
theorem C3_amended_witness :
    getOrCreateRootDisk envC3ok =
      (RunRes.ok "link-to-disk", ⟨1, 1⟩) :=
  ((C3_amended envC3ok).2 (by decide)).2.2.2.2
    { name := "op-disk", status := "PENDING", targetLink := "link-to-disk" }
    (by decide) (by decide) (by decide)

/-! ## Instance Manager -/

/-- C4: whenever `CreateInstance` succeeds, the string it returns is
empty — it is read back from the request literal's first access config,
whose `NatIP` field is never assigned. -/
theorem C4_returns_natIP_empty (projectId name : String) (env : CreateEnv)
    (s : String) (h : (CreateInstance projectId name env).1 = RunRes.ok s) :
    s = "" := by
  obtain ⟨denv, ⟨iop, ierr⟩, fs⟩ := env
  simp only [CreateInstance] at h
  cases hres : getOrCreateRootDisk denv with
  | mk res dc =>
    rw [hres] at h
    cases res with
    | fail e => simp at h
    | crash => simp at h
    | stuck => simp at h
    | ok rootDisk =>
      cases ierr with
      | some e => simp at h
      | none =>
        cases iop with
        | none => simp at h
        | some op0 =>
          cases hw : (waitForOp fs).1 with
          | fail e => rw [hw] at h; simp at h
          | crash => rw [hw] at h; simp at h
          | stuck => rw [hw] at h; simp at h
          | ok u =>
            rw [hw] at h
            simp [mkInstance] at h
            exact h.symm

/-- Witness for C4: a fully successful create returns the empty
address. -/
theorem C4_witness :
    (CreateInstance "proj" "docker-instance" envC4).1 = RunRes.ok "" ∧
    ("" : String) = "" :=
  ⟨by decide, C4_returns_natIP_empty "proj" "docker-instance" envC4 "" (by decide)⟩

/-- C9: when obtaining the root disk fails, `CreateInstance` returns
that same error and issues no instance insert. -/
theorem C9_disk_failure_aborts (projectId name : String) (env : CreateEnv)
    (e : String) (h : (getOrCreateRootDisk env.diskEnv).1 = RunRes.fail e) :
    CreateInstance projectId name env =
      (RunRes.fail e, ⟨(getOrCreateRootDisk env.diskEnv).2.inserts, 0⟩) := by
  cases hres : getOrCreateRootDisk env.diskEnv with
  | mk res dc =>
    rw [hres] at h
    simp only [Prod.fst] at h
    subst h
    simp [CreateInstance, hres]

/-- Witness for C9: with a failed disk step, the create call returns
the disk step's error and `⟨1, 0⟩` counts — one disk insert attempted,
zero instance inserts. -/
theorem C9_witness :
    (getOrCreateRootDisk envC9.diskEnv).1 = RunRes.fail "insert failed" ∧
    CreateInstance "proj" "docker-instance" envC9 =
      (RunRes.fail "insert failed", ⟨1, 0⟩) :=
  ⟨by decide,
    C9_disk_failure_aborts "proj" "docker-instance" envC9 "insert failed" (by decide)⟩

/-- C10: a delete run issues exactly one instance delete and no disk
delete whatsoever; when the delete call is accepted, exactly one
operation wait follows. -/
theorem C10_delete_frame (env : DeleteEnv) :
    (DeleteInstance env).2.diskDeletes = 0 ∧
    (DeleteInstance env).2.instanceDeletes = 1 ∧
    (DeleteInstance env).2.waits ≤ 1 ∧
    (env.instDelete.err = none → (DeleteInstance env).2.waits = 1) := by
  obtain ⟨⟨dop, derr⟩, fs⟩ := env
  cases derr with
  | some e =>
    refine ⟨rfl, rfl, Nat.zero_le 1, ?_⟩
    intro h
    exact Option.noConfusion h
  | none =>
    cases dop with
    | none => exact ⟨rfl, rfl, Nat.le_refl 1, fun _ => rfl⟩
    | some op => exact ⟨rfl, rfl, Nat.le_refl 1, fun _ => rfl⟩

/-- Witness for C10: a successful delete performs its one wait. -/
theorem C10_witness :
    delEnvC10.instDelete.err = none ∧ (DeleteInstance delEnvC10).2.waits = 1 :=
  ⟨rfl, (C10_delete_frame delEnvC10).2.2.2 rfl⟩

/-! ## Address Resolver -/

/-- C7 counterexample.  The claim says a successfully looked-up
instance with no network interface yields an error return.  It yields a
crash (index out of range on `NetworkInterfaces[0]`), and no error
value at all. -/
theorem C7_counterexample :
    GetPublicIPAddress ⟨some bareInstance, none⟩ = RunRes.crash ∧
    ∀ e, GetPublicIPAddress ⟨some bareInstance, none⟩ ≠ RunRes.fail e := by
  refine ⟨by decide, ?_⟩
  intro e h
  have h0 : GetPublicIPAddress ⟨some bareInstance, none⟩ = RunRes.crash := by decide
  rw [h0] at h
  exact RunRes.noConfusion h

/-- C7 (amended): a failed lookup returns the lookup's error; a
successful lookup with at least one interface holding at least one
access config returns that first config's external address; but a
successful lookup whose instance has no network interface, or whose
first interface has no access config, crashes on the index access
rather than returning an error. -/
theorem C7_amended (r : InstGetRes) :
    (∀ e, r.err = some e → GetPublicIPAddress r = RunRes.fail e) ∧
    (∀ i ni nis ac acs, r.err = none → r.inst = some i →
      i.networkInterfaces = ni :: nis → ni.accessConfigs = ac :: acs →
      GetPublicIPAddress r = RunRes.ok ac.natIP) ∧
    (∀ i, r.err = none → r.inst = some i → i.networkInterfaces = [] →
      GetPublicIPAddress r = RunRes.crash) ∧
    (∀ i ni nis, r.err = none → r.inst = some i →
      i.networkInterfaces = ni :: nis → ni.accessConfigs = [] →
      GetPublicIPAddress r = RunRes.crash) := by
  obtain ⟨inst, err⟩ := r
  refine ⟨?_, ?_, ?_, ?_⟩
  · intro e he
    simp only at he
    subst he
    rfl
  · intro i ni nis ac acs he hi h3 h4
    simp only at he hi
    subst he
    subst hi
    simp [GetPublicIPAddress, h3, h4]
  · intro i he hi h3
    simp only at he hi
    subst he
    subst hi
    simp [GetPublicIPAddress, h3]
  · intro i ni nis he hi h3 h4
    simp only at he hi
    subst he
    subst hi
    simp [GetPublicIPAddress, h3, h4]

/-- Witness for C7 (amended), at the failed-lookup case. -/
theorem C7_witness :
    GetPublicIPAddress ⟨none, some "instance not found"⟩ =
      RunRes.fail "instance not found" :=
  (C7_amended ⟨none, some "instance not found"⟩).1 "instance not found" rfl

/-! ## Tunnel Launcher -/

/-- C8: if address resolution fails, the resolution error is returned
and no subprocess is spawned; if it succeeds, the call spawns the
subprocess at the resolved address and returns a `nil` error whatever
the subprocess does (`env.sshExit` is arbitrary). -/
theorem C8_tunnel (env : TunnelEnv) :
    (∀ e, GetPublicIPAddress env.instGet = RunRes.fail e →
      openSecureTunnel env = (RunRes.fail e, 0, none)) ∧
    (∀ ip, GetPublicIPAddress env.instGet = RunRes.ok ip →
      openSecureTunnel env = (RunRes.ok (), 1, some ip)) := by
  constructor
  · intro e h
    simp [openSecureTunnel, h]
  · intro ip h
    simp [openSecureTunnel, h]

/-- Witness for C8: resolution succeeds and the spawned ssh process
fails at once — the call still reports success. -/
theorem C8_witness :
    openSecureTunnel ⟨⟨some runningInstance, none⟩, some "exited immediately"⟩ =
      (RunRes.ok (), 1, some "203.0.113.7") :=
  (C8_tunnel ⟨⟨some runningInstance, none⟩, some "exited immediately"⟩).2
    "203.0.113.7" (by decide)

/-! ## Orchestrator -/

/-- C6: when the initial public-address query answers with a non-empty
address, the whole `start` run issues no disk insert and no instance
insert, and proceeds to the tunnel launch, which targets that same
address (the provider snapshot is unchanged on this mutation-free
path). -/
theorem C6_reuse_running_instance (projectId name : String) (env : StartEnv)
    (ip : String) (h : GetPublicIPAddress env.instGet = RunRes.ok ip)
    (hlen : 0 < ip.length) :
    startRun projectId name env = (RunRes.ok (), ⟨0, 0, 1, some ip⟩) := by
  have hroot : GetOrCreateInstance projectId name env = (RunRes.ok ip, ⟨0, 0⟩) := by
    simp [GetOrCreateInstance, h, hlen]
  have htun : openSecureTunnel ⟨env.instGet, env.sshExit⟩ = (RunRes.ok (), 1, some ip) := by
    simp [openSecureTunnel, h]
  simp [startRun, hroot, htun]

/-- Witness for C6: a reachable instance is reused and tunnelled to,
with zero create calls. -/
theorem C6_witness :
    startRun "proj" "docker-instance" ⟨⟨some runningInstance, none⟩, envC4, none⟩ =
      (RunRes.ok (), ⟨0, 0, 1, some "203.0.113.7"⟩) :=
  C6_reuse_running_instance "proj" "docker-instance"
    ⟨⟨some runningInstance, none⟩, envC4, none⟩ "203.0.113.7" (by decide) (by decide)

end DockerCloud
